import Mathlib

/-!
Verification of the Teensy MIDI clock sketch (`src/teensy-midi-clock.ino`).

The sketch is embedded shallowly:

* `UpdateIntervalFromBPM` performs 32-bit IEEE-754 float arithmetic.  All
  values occurring in the sketch are strictly positive and lie well inside
  the normal range of `binary32`, so floats are modelled exactly as pairs
  `⟨m, e⟩` with normalized significand `2^23 ≤ m < 2^24` denoting `m · 2^e`,
  and every arithmetic operation rounds its exact result to nearest-even,
  which is the IEEE-754 default rounding used by the target.
* The global mutable state of the sketch (`pulsePending`, `extClockPending`,
  `pulseCounter`, `timerEn`, the `IntervalTimer` and the built-in LED) is a
  structure `MState`; every handler is a function `MState → MState`; the
  Arduino `loop` body is a function from a state and the (at most one)
  inbound MIDI message delivered by `usbMIDI.read()` to a new state plus a
  list of outbound MIDI bytes.
* The `SPP_SYNC` build variant (the `#ifdef` blocks) is embedded separately
  on a state `SState` carrying the extra `SPP` counter.
-/

/-! ## Exact binary32 arithmetic on normalized positive floats -/

/-- Fuel-driven base-2 logarithm (`log2fuel f n = ⌊log₂ n⌋` for `1 ≤ n < 2^f`),
structurally recursive so the kernel can evaluate it. -/
def log2fuel : Nat → Nat → Nat
  | 0, _ => 0
  | f + 1, n => if 2 ≤ n then log2fuel f (n / 2) + 1 else 0

/-- `⌊log₂ n⌋` for the magnitudes appearing in this development (< 2^64). -/
def nlog2 (n : Nat) : Nat := log2fuel 64 n

/-- A positive binary32 value `m · 2^e` with `2^23 ≤ m < 2^24`.  Overflow and
subnormals never arise in the sketch's tempo computation, so they are not
modelled. -/
structure F32 where
  m : Nat
  e : Int
  deriving Repr, DecidableEq

namespace F32

/-- Round `m · 2^e` (any `m > 0`) to a normalized 24-bit significand using
round-to-nearest, ties-to-even — the IEEE-754 default. -/
def norm (m : Nat) (e : Int) : F32 :=
  let k := nlog2 m
  if k ≤ 23 then ⟨m * 2 ^ (23 - k), e - (23 - k)⟩
  else
    let s := k - 23
    let q := m / 2 ^ s
    let r := m % 2 ^ s
    let half := 2 ^ (s - 1)
    let q' := if half < r then q + 1
              else if r < half then q
              else if q % 2 == 0 then q else q + 1
    if q' == 2 ^ 24 then ⟨2 ^ 23, e + s + 1⟩ else ⟨q', e + s⟩

/-- Exact conversion of a positive integer (`n < 2^24` in all uses, hence
representable without rounding). -/
def ofNat (n : Nat) : F32 := norm n 0

/-- Float multiplication: exact product of significands, then one rounding. -/
def mul (a b : F32) : F32 := norm (a.m * b.m) (a.e + b.e)

/-- Float division: the exact quotient `a.m·2^(a.e) / (b.m·2^(b.e))` rounded
to nearest-even.  `a.m·2^25 / b.m` lies in `(2^24, 2^26)`, so 25 guard bits
suffice to locate the leading bit and round exactly. -/
def div (a b : F32) : F32 :=
  let A := a.m * 2 ^ 25
  let B := b.m
  let k := nlog2 (A / B)
  let D := B * 2 ^ (k - 23)
  let q := A / D
  let r := A % D
  let q' := if D < 2 * r then q + 1
            else if 2 * r < D then q
            else if q % 2 == 0 then q else q + 1
  let e := a.e - b.e - 25 + k - 23
  if q' == 2 ^ 24 then ⟨2 ^ 23, e + 1⟩ else ⟨q', e⟩

/-- `static_cast<uint32_t>` of a positive float: truncation toward zero. -/
def toUInt (a : F32) : Nat :=
  if 0 ≤ a.e then a.m * 2 ^ a.e.toNat else a.m / 2 ^ (-a.e).toNat

end F32

/-! ## Compile-time constants of the sketch -/

/-- `#define MIDI_CLOCK_PPN 24u` -/
def MIDI_CLOCK_PPN : Nat := 24

/-- `#define MIN_PER_SEC (1.0f/60.0f)` — the float32 nearest to 1/60. -/
def MIN_PER_SEC : F32 := F32.div (F32.ofNat 1) (F32.ofNat 60)

/-- `#define SEC_PER_US (1.0f/(1000000.0f))` — the float32 nearest to 1e-6. -/
def SEC_PER_US : F32 := F32.div (F32.ofNat 1) (F32.ofNat 1000000)

/-- `#define BPM_OFFSET 40.0f` -/
def BPM_OFFSET : Nat := 40

/-- `#define SPP_BEATS_PER_QUARTER 4u` -/
def SPP_BEATS_PER_QUARTER : Nat := 4

/-- `#define SPP_BEATS_PER_MEASURE 16u` -/
def SPP_BEATS_PER_MEASURE : Nat := 16

/-- `#define SPP_PULSES_PER_BEAT (MIDI_CLOCK_PPN / SPP_BEATS_PER_QUARTER)` -/
def SPP_PULSES_PER_BEAT : Nat := MIDI_CLOCK_PPN / SPP_BEATS_PER_QUARTER

/-- `#define LED_BEAT_DIV_RATIO 2` -/
def LED_BEAT_DIV_RATIO : Nat := 2

/-- `CC_Tempo = 3` -/
def CC_Tempo : Nat := 3

/-- `PC_Tempo = 15` -/
def PC_Tempo : Nat := 15

/-! ## The tempo-to-interval computation

`uint32_t UpdateIntervalFromBPM(float BPM)` returns
`static_cast<uint32_t>(1.0f / (float(MIDI_CLOCK_PPN) * BPM * MIN_PER_SEC * SEC_PER_US))`,
all in float32 with left-to-right association. -/

/-- `UpdateIntervalFromBPM`, with each float32 operation rounding exactly as
the hardware does. -/
def UpdateIntervalFromBPM (BPM : F32) : Nat :=
  F32.toUInt (F32.div (F32.ofNat 1)
    (F32.mul (F32.mul (F32.mul (F32.ofNat MIDI_CLOCK_PPN) BPM) MIN_PER_SEC) SEC_PER_US))

/-- The interval computed by both tempo handlers from a 7-bit control value:
`UpdateIntervalFromBPM(static_cast<float>(value) + BPM_OFFSET)`.  For
`value ≤ 127` the cast and the addition of `40.0f` are exact in float32
(integers below `2^24` are representable), so the argument is the exact
float `value + 40`. -/
def tempoIntervalUs (value : Nat) : Nat :=
  UpdateIntervalFromBPM (F32.ofNat (value + BPM_OFFSET))

/-! ## MIDI constants of the `usbMIDI` library

Single-byte real-time status values, per the MIDI 1.0 specification and the
Teensy `usbMIDI` API (`usbMIDI.Clock` = 0xF8, `usbMIDI.Start` = 0xFA,
`usbMIDI.Continue` = 0xFB, `usbMIDI.Stop` = 0xFC). -/

def usbMIDI_Clock : Nat := 0xF8

def usbMIDI_Start : Nat := 0xFA

def usbMIDI_Continue : Nat := 0xFB

def usbMIDI_Stop : Nat := 0xFC

def usbMIDI_ActiveSensing : Nat := 0xFE

/-! ## The sketch's mutable state (base build, `SPP_SYNC` not defined) -/

/-- All mutable state of the sketch: the four static variables
(`pulsePending`, `extClockPending`, `pulseCounter`, `timerEn`), the
`IntervalTimer` (whether its periodic interrupt is scheduled, and the
programmed period in microseconds) and the built-in LED level. -/
structure MState where
  pulsePending : Bool
  extClockPending : Bool
  pulseCounter : Nat
  timerEn : Bool
  timerRunning : Bool
  timerInterval : Nat
  led : Bool
  deriving Repr, DecidableEq

/-- State after `setup()`: all statics at their initializers
(`pulsePending = extClockPending = false`, `pulseCounter = 0`,
`timerEn = false`), timer not started, LED pin driven low. -/
def setupState : MState :=
  { pulsePending := false, extClockPending := false, pulseCounter := 0,
    timerEn := false, timerRunning := false, timerInterval := 0, led := false }

/-- `TimerISR`: the interrupt service routine only sets `pulsePending`. -/
def TimerISR (s : MState) : MState := { s with pulsePending := true }

/-- The shared body of `CC_Handler` / `PC_Handler` once the message
qualifies: compute the interval; if `timerEn`, `midiClockTimer.update(i)`
reprograms the running timer, else `midiClockTimer.begin(TimerISR, i)`
starts it and `timerEn` is set. -/
def armTimer (value : Nat) (s : MState) : MState :=
  let clockIntervalUs := tempoIntervalUs value
  if s.timerEn then { s with timerInterval := clockIntervalUs }
  else { s with timerRunning := true, timerInterval := clockIntervalUs, timerEn := true }

/-- `CC_Handler(channel, control, value)`: acts only when
`control == CC_Tempo`; the channel is not examined (omni). -/
def CC_Handler (channel control value : Nat) (s : MState) : MState :=
  if control == CC_Tempo then armTimer value s else s

/-- `PC_Handler(channel, value)`: acts only when `channel == PC_Tempo`. -/
def PC_Handler (channel value : Nat) (s : MState) : MState :=
  if channel == PC_Tempo then armTimer value s else s

/-- `RealTimeSystemHandler(realtimebyte)`: `Start` resets `pulseCounter`
and stops the timer if enabled; `Stop` stops the timer if enabled; `Clock`
marks an external pulse pending; any other byte falls through the `switch`
unchanged. -/
def RealTimeSystemHandler (realtimebyte : Nat) (s : MState) : MState :=
  if realtimebyte == usbMIDI_Start then
    let s1 := { s with pulseCounter := 0 }
    if s1.timerEn then { s1 with timerRunning := false, timerEn := false } else s1
  else if realtimebyte == usbMIDI_Stop then
    if s.timerEn then { s with timerRunning := false, timerEn := false } else s
  else if realtimebyte == usbMIDI_Clock then
    { s with extClockPending := true }
  else s

/-- `ClockPulseHandler` (base build): drive the LED from the current
`pulseCounter`, then advance it modulo `MIDI_CLOCK_PPN`. -/
def ClockPulseHandler (s : MState) : MState :=
  let s1 :=
    if s.pulseCounter == 0 then { s with led := true }
    else if s.pulseCounter == MIDI_CLOCK_PPN / LED_BEAT_DIV_RATIO then { s with led := false }
    else s
  { s1 with pulseCounter := (s1.pulseCounter + 1) % MIDI_CLOCK_PPN }

/-- One inbound MIDI message as decoded by the `usbMIDI` transport. -/
inductive MidiMsg where
  | controlChange (channel control value : Nat)
  | programChange (channel value : Nat)
  | realTime (b : Nat)
  | songPosition (beats : Nat)
  | other
  deriving Repr, DecidableEq

/-- `usbMIDI.read()`: poll the transport once; dispatch the decoded message
(if any) to the handler registered for it in `setup()`.  In the base build
no Song Position handler is registered, so such a message changes nothing. -/
def usbMIDI_read (s : MState) : Option MidiMsg → MState
  | some (.controlChange channel control value) => CC_Handler channel control value s
  | some (.programChange channel value) => PC_Handler channel value s
  | some (.realTime b) => RealTimeSystemHandler b s
  | _ => s

/-- One iteration of `loop()`.  `inbound` is the message the transport
would deliver if polled this iteration.  The returned list holds the bytes
sent out (and flushed by `send_now()`) during the iteration. -/
def loopStep (s : MState) (inbound : Option MidiMsg) : MState × List Nat :=
  if s.pulsePending then
    (ClockPulseHandler { s with pulsePending := false }, [usbMIDI_Clock])
  else if s.extClockPending then
    (ClockPulseHandler { s with extClockPending := false }, [])
  else
    (usbMIDI_read s inbound, [])

/-! ## Execution model: which transitions the hardware can take

Between any two observation points the sketch either runs one iteration of
`loop()` (consuming at most one inbound message delivered by
`usbMIDI.read()`), or the `IntervalTimer` interrupt fires and runs
`TimerISR`. -/

/-- One atomic transition of the sketch. -/
inductive Step : MState → MState → Prop where
  | isr (s : MState) : Step s (TimerISR s)
  | loopIter (s : MState) (inbound : Option MidiMsg) : Step s (loopStep s inbound).1

/-- States reachable from the post-`setup()` state. -/
inductive Reachable : MState → Prop where
  | setup : Reachable setupState
  | step {s s' : MState} : Reachable s → Step s s' → Reachable s'

/-! ## The `SPP_SYNC` build variant

The `#ifdef SPP_SYNC` blocks add a `uint16_t SPP` counter, a Song Position
handler registered with the transport, and a per-beat increment appended to
`ClockPulseHandler`.  (The shipped sketch leaves `SPP_SYNC` commented out;
these definitions embed the code that is compiled when it is defined.) -/

/-- Mutable state of the `SPP_SYNC` build: the base state plus `SPP`. -/
structure SState where
  pulsePending : Bool
  extClockPending : Bool
  pulseCounter : Nat
  timerEn : Bool
  timerRunning : Bool
  timerInterval : Nat
  led : Bool
  SPP : Nat
  deriving Repr, DecidableEq

/-- `SongPositionHandler(beats)`: store `beats` into `SPP`; then
`if (SPP % SPP_BEATS_PER_MEASURE)` — C truthiness, i.e. when the remainder
is NONZERO — reset `pulseCounter` to 0. -/
def SongPositionHandler (beats : Nat) (s : SState) : SState :=
  let s1 := { s with SPP := beats }
  if s1.SPP % SPP_BEATS_PER_MEASURE != 0 then { s1 with pulseCounter := 0 } else s1

/-- `SongPositionIncrement()`: `SPP++` (a `uint16_t`, wrapping at 2^16),
then run `SongPositionHandler` on the new value. -/
def SongPositionIncrement (s : SState) : SState :=
  let s1 := { s with SPP := (s.SPP + 1) % 65536 }
  SongPositionHandler s1.SPP s1

/-- `ClockPulseHandler` as compiled under `SPP_SYNC`: the base body, then
`SongPositionIncrement` whenever the advanced counter is a multiple of
`SPP_PULSES_PER_BEAT`. -/
def ClockPulseHandlerSPP (s : SState) : SState :=
  let s1 :=
    if s.pulseCounter == 0 then { s with led := true }
    else if s.pulseCounter == MIDI_CLOCK_PPN / LED_BEAT_DIV_RATIO then { s with led := false }
    else s
  let s2 := { s1 with pulseCounter := (s1.pulseCounter + 1) % MIDI_CLOCK_PPN }
  if s2.pulseCounter % SPP_PULSES_PER_BEAT == 0 then SongPositionIncrement s2 else s2

/-! ## Sanity checks -/

example : MIN_PER_SEC = ⟨8947849, -29⟩ := by decide
example : tempoIntervalUs 20 = 41666 := by decide
example : (loopStep (TimerISR setupState) none).2 = [248] := by decide
example : (ClockPulseHandler setupState).pulseCounter = 1 := by decide

/-! ## Helper lemmas -/

/-- One pulse always advances the counter by one, modulo 24; the LED logic
never touches it. -/
lemma clockPulse_counter (s : MState) :
    (ClockPulseHandler s).pulseCounter = (s.pulseCounter + 1) % MIDI_CLOCK_PPN := by
  unfold ClockPulseHandler
  split_ifs <;> rfl

/-- The counter stays below 24 after a pulse, from any prior value. -/
lemma clockPulse_counter_lt (s : MState) :
    (ClockPulseHandler s).pulseCounter < MIDI_CLOCK_PPN := by
  rw [clockPulse_counter]
  exact Nat.mod_lt _ (by decide)

/-- The tempo handlers never touch `pulseCounter`. -/
lemma armTimer_pulseCounter (value : Nat) (s : MState) :
    (armTimer value s).pulseCounter = s.pulseCounter := by
  unfold armTimer
  split_ifs <;> rfl

/-- `RealTimeSystemHandler` either zeroes `pulseCounter` (on `Start`) or
leaves it alone. -/
lemma realTime_pulseCounter (b : Nat) (s : MState) :
    (RealTimeSystemHandler b s).pulseCounter = 0 ∨
    (RealTimeSystemHandler b s).pulseCounter = s.pulseCounter := by
  unfold RealTimeSystemHandler
  split_ifs with h1 h2 h3 h4
  · left; dsimp only; split_ifs <;> rfl
  · right; rfl
  · right; rfl
  · right; rfl
  · right; rfl

/-- Polling the transport preserves `pulseCounter < 24`. -/
lemma read_pulseCounter_lt (s : MState) (m : Option MidiMsg)
    (h : s.pulseCounter < MIDI_CLOCK_PPN) :
    (usbMIDI_read s m).pulseCounter < MIDI_CLOCK_PPN := by
  match m with
  | none => exact h
  | some (.controlChange channel control value) =>
      simp only [usbMIDI_read, CC_Handler]
      split_ifs with h1
      · rw [armTimer_pulseCounter]; exact h
      · exact h
  | some (.programChange channel value) =>
      simp only [usbMIDI_read, PC_Handler]
      split_ifs with h1
      · rw [armTimer_pulseCounter]; exact h
      · exact h
  | some (.realTime b) =>
      simp only [usbMIDI_read]
      rcases realTime_pulseCounter b s with h0 | h0 <;> rw [h0]
      · decide
      · exact h
  | some (.songPosition beats) => exact h
  | some .other => exact h

/-- Every atomic transition preserves `pulseCounter < 24`. -/
lemma step_pulseCounter_lt {s s' : MState} (h : s.pulseCounter < MIDI_CLOCK_PPN)
    (hs : Step s s') : s'.pulseCounter < MIDI_CLOCK_PPN := by
  cases hs with
  | isr => exact h
  | loopIter inbound =>
      unfold loopStep
      split_ifs
      · exact clockPulse_counter_lt _
      · exact clockPulse_counter_lt _
      · exact read_pulseCounter_lt _ inbound h

/-- `Stop` as a single equation: disarm if enabled, else no-op. -/
lemma realTime_stop_eq (s : MState) :
    RealTimeSystemHandler usbMIDI_Stop s =
      if s.timerEn then { s with timerRunning := false, timerEn := false } else s := by
  simp only [RealTimeSystemHandler, usbMIDI_Start, usbMIDI_Stop, usbMIDI_Clock]
  norm_num

/-! ## Claim theorems -/

/-- C2: receiving real-time `Start` resets `pulseCounter` to 0 and, when the
timer was armed, additionally stops the timer and clears the run flag; when
it was not armed, only `pulseCounter` changes. -/
theorem start_resets_counter_and_disarms (s : MState) :
    (s.timerEn = true →
      RealTimeSystemHandler usbMIDI_Start s =
        { s with pulseCounter := 0, timerEn := false, timerRunning := false }) ∧
    (s.timerEn = false →
      RealTimeSystemHandler usbMIDI_Start s = { s with pulseCounter := 0 }) := by
  constructor <;> intro h <;> simp [RealTimeSystemHandler, h]

/-- Witness for C2 at a concrete armed state and the dormant start state. -/
theorem start_resets_counter_and_disarms_witness :
    RealTimeSystemHandler usbMIDI_Start (armTimer 20 setupState) =
      { (armTimer 20 setupState) with
        pulseCounter := 0
        timerEn := false
        timerRunning := false } ∧
    RealTimeSystemHandler usbMIDI_Start setupState = { setupState with pulseCounter := 0 } :=
  ⟨(start_resets_counter_and_disarms (armTimer 20 setupState)).1 (by decide),
   (start_resets_counter_and_disarms setupState).2 rfl⟩

/-- C7: receiving real-time `Stop` disarms the timer when armed and changes
nothing else; `pulseCounter` keeps its value; on a disarmed state `Stop` is
the identity, so disarming is idempotent. -/
theorem stop_disarms_only (s : MState) :
    (s.timerEn = true →
      RealTimeSystemHandler usbMIDI_Stop s =
        { s with timerEn := false, timerRunning := false }) ∧
    (s.timerEn = false → RealTimeSystemHandler usbMIDI_Stop s = s) ∧
    (RealTimeSystemHandler usbMIDI_Stop s).pulseCounter = s.pulseCounter ∧
    RealTimeSystemHandler usbMIDI_Stop (RealTimeSystemHandler usbMIDI_Stop s) =
      RealTimeSystemHandler usbMIDI_Stop s := by
  refine ⟨fun h => ?_, fun h => ?_, ?_, ?_⟩
  · rw [realTime_stop_eq]; simp [h]
  · rw [realTime_stop_eq]; simp [h]
  · rw [realTime_stop_eq]; split_ifs <;> rfl
  · by_cases h : s.timerEn <;> simp [realTime_stop_eq, h]

/-- Witness for C7 at a concrete armed state and the dormant start state. -/
theorem stop_disarms_only_witness :
    RealTimeSystemHandler usbMIDI_Stop (armTimer 20 setupState) =
      { (armTimer 20 setupState) with timerEn := false, timerRunning := false } ∧
    RealTimeSystemHandler usbMIDI_Stop setupState = setupState :=
  ⟨(stop_disarms_only (armTimer 20 setupState)).1 (by decide),
   (stop_disarms_only setupState).2.1 rfl⟩

/-- C10: a real-time `Clock` byte only marks an external pulse pending,
whatever the rest of the state (in particular while the internal timer is
armed); any real-time byte other than `Start`, `Stop`, `Clock` leaves the
state unchanged. -/
theorem clock_sets_ext_pending_only (b : Nat) (s : MState) :
    (b = usbMIDI_Clock →
      RealTimeSystemHandler b s = { s with extClockPending := true }) ∧
    (b ≠ usbMIDI_Start → b ≠ usbMIDI_Stop → b ≠ usbMIDI_Clock →
      RealTimeSystemHandler b s = s) := by
  constructor
  · intro h; subst h
    simp [RealTimeSystemHandler, usbMIDI_Start, usbMIDI_Stop, usbMIDI_Clock]
  · intro h1 h2 h3
    simp [RealTimeSystemHandler, h1, h2, h3]

/-- Witness for C10: `Clock` received while the timer is armed, and the
`Continue` byte (0xFB) as a non-handled real-time byte. -/
theorem clock_sets_ext_pending_only_witness :
    RealTimeSystemHandler usbMIDI_Clock (armTimer 20 setupState) =
      { (armTimer 20 setupState) with extClockPending := true } ∧
    RealTimeSystemHandler usbMIDI_Continue setupState = setupState :=
  ⟨(clock_sets_ext_pending_only usbMIDI_Clock (armTimer 20 setupState)).1 rfl,
   (clock_sets_ext_pending_only usbMIDI_Continue setupState).2
     (by decide) (by decide) (by decide)⟩

/-- C9: a Control Change acts exactly when its controller number is
`CC_Tempo` (3), on any channel; a Program Change acts exactly when its
channel is `PC_Tempo` (15); a qualifying message leaves the run flag set,
starting the timer when it was dormant and merely reprogramming the period
when it was already running. -/
theorem tempo_message_arms_timer (channel control value : Nat) (s : MState) :
    (control = CC_Tempo → CC_Handler channel control value s = armTimer value s) ∧
    (control ≠ CC_Tempo → CC_Handler channel control value s = s) ∧
    (channel = PC_Tempo → PC_Handler channel value s = armTimer value s) ∧
    (channel ≠ PC_Tempo → PC_Handler channel value s = s) ∧
    (armTimer value s).timerEn = true ∧
    (s.timerEn = false → armTimer value s =
      { s with
        timerRunning := true
        timerInterval := tempoIntervalUs value
        timerEn := true }) ∧
    (s.timerEn = true →
      armTimer value s = { s with timerInterval := tempoIntervalUs value }) := by
  refine ⟨fun h => ?_, fun h => ?_, fun h => ?_, fun h => ?_, ?_, fun h => ?_, fun h => ?_⟩
  · simp [CC_Handler, h]
  · simp [CC_Handler, h]
  · simp [PC_Handler, h]
  · simp [PC_Handler, h]
  · unfold armTimer; split_ifs with h <;> simp [h]
  · simp [armTimer, h]
  · simp [armTimer, h]

/-- Witness for C9: CC#3 on channel 0 arms from dormant; CC#4 is ignored;
PC on channel 15 arms; PC on channel 3 is ignored. -/
theorem tempo_message_arms_timer_witness :
    CC_Handler 0 CC_Tempo 20 setupState = armTimer 20 setupState ∧
    CC_Handler 0 4 20 setupState = setupState ∧
    PC_Handler PC_Tempo 0 setupState = armTimer 0 setupState ∧
    PC_Handler 3 0 setupState = setupState :=
  ⟨(tempo_message_arms_timer 0 CC_Tempo 20 setupState).1 rfl,
   (tempo_message_arms_timer 0 4 20 setupState).2.1 (by decide),
   (tempo_message_arms_timer PC_Tempo 3 0 setupState).2.2.1 rfl,
   (tempo_message_arms_timer 3 3 0 setupState).2.2.2.1 (by decide)⟩

/-- C5: one pulse-handler call turns the LED on exactly for prior counter
0, off exactly for prior counter 12 (= 24/2), leaves it alone for every
other prior value, and always advances the counter to (prior + 1) mod 24. -/
theorem clock_pulse_led_and_advance (s : MState) :
    (ClockPulseHandler s).pulseCounter = (s.pulseCounter + 1) % 24 ∧
    (s.pulseCounter = 0 → (ClockPulseHandler s).led = true) ∧
    (s.pulseCounter = 12 → (ClockPulseHandler s).led = false) ∧
    (s.pulseCounter ≠ 0 → s.pulseCounter ≠ 12 →
      (ClockPulseHandler s).led = s.led) := by
  refine ⟨clockPulse_counter s, fun h0 => ?_, fun h12 => ?_, fun h0 h12 => ?_⟩
  · simp [ClockPulseHandler, h0]
  · simp [ClockPulseHandler, h12, MIDI_CLOCK_PPN, LED_BEAT_DIV_RATIO]
  · simp [ClockPulseHandler, h0, h12, MIDI_CLOCK_PPN, LED_BEAT_DIV_RATIO]

/-- Witness for C5 at prior counters 0, 12 and 5. -/
theorem clock_pulse_led_and_advance_witness :
    (ClockPulseHandler setupState).led = true ∧
    (ClockPulseHandler { setupState with pulseCounter := 12 }).led = false ∧
    (ClockPulseHandler { setupState with pulseCounter := 5, led := true }).led = true :=
  ⟨(clock_pulse_led_and_advance setupState).2.1 rfl,
   (clock_pulse_led_and_advance { setupState with pulseCounter := 12 }).2.2.1 rfl,
   (clock_pulse_led_and_advance
     { setupState with pulseCounter := 5, led := true }).2.2.2 (by decide) (by decide)⟩

/-- C3: each `loop()` iteration takes exactly one of three mutually
exclusive actions, in priority order: consume the internal pulse (clearing
`pulsePending`, sending one Clock byte, running the pulse handler); else
consume the external pulse (clearing `extClockPending`, running the pulse
handler, sending nothing); else poll the transport once. -/
theorem loop_priority (s : MState) (inbound : Option MidiMsg) :
    (s.pulsePending = true →
      loopStep s inbound =
        (ClockPulseHandler { s with pulsePending := false }, [usbMIDI_Clock])) ∧
    (s.pulsePending = false → s.extClockPending = true →
      loopStep s inbound =
        (ClockPulseHandler { s with extClockPending := false }, [])) ∧
    (s.pulsePending = false → s.extClockPending = false →
      loopStep s inbound = (usbMIDI_read s inbound, [])) := by
  refine ⟨fun h1 => ?_, fun h1 h2 => ?_, fun h1 h2 => ?_⟩
  · simp [loopStep, h1]
  · simp [loopStep, h1, h2]
  · simp [loopStep, h1, h2]

/-- Witness for C3: the three branches at concrete states. -/
theorem loop_priority_witness :
    loopStep (TimerISR setupState) none =
      (ClockPulseHandler { (TimerISR setupState) with pulsePending := false },
        [usbMIDI_Clock]) ∧
    loopStep (RealTimeSystemHandler usbMIDI_Clock setupState) none =
      (ClockPulseHandler
        { (RealTimeSystemHandler usbMIDI_Clock setupState) with extClockPending := false },
        []) ∧
    loopStep setupState none = (usbMIDI_read setupState none, []) :=
  ⟨(loop_priority (TimerISR setupState) none).1 rfl,
   (loop_priority (RealTimeSystemHandler usbMIDI_Clock setupState) none).2.1
     (by decide) (by decide),
   (loop_priority setupState none).2.2 rfl rfl⟩

/-- C6: from the post-`setup()` state, `pulseCounter` stays in `[0, 24)`
under every transition of the sketch, and consuming a pulse — internal or
external alike — advances it to (prior + 1) mod 24, wrapping at 24. -/
theorem pulse_counter_invariant :
    (∀ s : MState, Reachable s → s.pulseCounter < MIDI_CLOCK_PPN) ∧
    (∀ (s : MState) (inbound : Option MidiMsg), s.pulsePending = true →
      ((loopStep s inbound).1).pulseCounter = (s.pulseCounter + 1) % MIDI_CLOCK_PPN) ∧
    (∀ (s : MState) (inbound : Option MidiMsg),
      s.pulsePending = false → s.extClockPending = true →
      ((loopStep s inbound).1).pulseCounter = (s.pulseCounter + 1) % MIDI_CLOCK_PPN) := by
  refine ⟨?_, ?_, ?_⟩
  · intro s h
    induction h with
    | setup => decide
    | step hr hs ih => exact step_pulseCounter_lt ih hs
  · intro s inbound h
    simp [loopStep, h, clockPulse_counter]
  · intro s inbound h1 h2
    simp [loopStep, h1, h2, clockPulse_counter]

/-- Witness for C6: the invariant at the start state; the wrap equation for
a consumed internal pulse and for a consumed external pulse. -/
theorem pulse_counter_invariant_witness :
    setupState.pulseCounter < MIDI_CLOCK_PPN ∧
    ((loopStep (TimerISR setupState) none).1).pulseCounter =
      ((TimerISR setupState).pulseCounter + 1) % MIDI_CLOCK_PPN ∧
    ((loopStep (RealTimeSystemHandler usbMIDI_Clock setupState) none).1).pulseCounter =
      ((RealTimeSystemHandler usbMIDI_Clock setupState).pulseCounter + 1) % MIDI_CLOCK_PPN :=
  ⟨pulse_counter_invariant.1 setupState Reachable.setup,
   pulse_counter_invariant.2.1 (TimerISR setupState) none rfl,
   pulse_counter_invariant.2.2 (RealTimeSystemHandler usbMIDI_Clock setupState) none
     (by decide) (by decide)⟩

/-- C1 counterexample: at control value 10 (50 BPM) the float32 pipeline
yields 49999 µs, not the 50000 µs that `60 000 000 / ((v+40)·24)` gives, so
the claimed exact formula does not hold for every `v`. -/
theorem tempo_interval_not_exact_at_10 :
    tempoIntervalUs 10 ≠ 60000000 / ((10 + 40) * 24) ∧
    tempoIntervalUs 10 = 49999 ∧ 60000000 / ((10 + 40) * 24) = 50000 := by
  refine ⟨?_, ?_, ?_⟩ <;> decide

set_option maxRecDepth 4000 in
/-- C1 (amended): for every control value the interval is the float32
computation truncated to the microsecond; it agrees with
`60 000 000 / ((v+40)·24)` (truncated) everywhere except `v = 10` and
`v = 60`, where float rounding loses one microsecond; it is always strictly
positive, and `v = 20` (60 BPM) yields 41666 µs. -/
theorem tempo_interval_values :
    ∀ v : Fin 128,
      0 < tempoIntervalUs v.val ∧
      tempoIntervalUs v.val =
        (if v.val = 10 then 49999
         else if v.val = 60 then 24999
         else 60000000 / ((v.val + 40) * 24)) := by
  decide

set_option maxRecDepth 4000 in
/-- Adjacent tempo values give strictly smaller intervals. -/
lemma tempo_interval_succ_lt :
    ∀ v : Fin 127, tempoIntervalUs (v.val + 1) < tempoIntervalUs v.val := by
  decide

/-- Strict decrease lifted to any pair below 128, by chaining adjacent
steps. -/
lemma tempo_interval_lt_of_lt :
    ∀ b, b ≤ 127 → ∀ a, a < b → tempoIntervalUs b < tempoIntervalUs a := by
  intro b
  induction b with
  | zero => intro _ a ha; omega
  | succ n ih =>
      intro hb a ha
      have hstep : tempoIntervalUs (n + 1) < tempoIntervalUs n :=
        tempo_interval_succ_lt ⟨n, by omega⟩
      rcases Nat.lt_succ_iff_lt_or_eq.mp ha with h | h
      · exact hstep.trans (ih (by omega) a h)
      · subst h; exact hstep

set_option maxRecDepth 4000 in
/-- C8: the tempo-to-interval mapping is strictly monotonically decreasing
on control values `0..127`, and every produced interval is positive. -/
theorem tempo_interval_strict_anti :
    (∀ v1 v2 : Fin 128, v1 < v2 → tempoIntervalUs v2.val < tempoIntervalUs v1.val) ∧
    (∀ v : Fin 128, 0 < tempoIntervalUs v.val) := by
  constructor
  · intro v1 v2 h
    exact tempo_interval_lt_of_lt v2.val (by omega) v1.val (Fin.lt_def.mp h)
  · decide

/-- Witness for C8 at the extreme pair 0 < 127. -/
theorem tempo_interval_strict_anti_witness :
    tempoIntervalUs (127 : Fin 128).val < tempoIntervalUs (0 : Fin 128).val :=
  tempo_interval_strict_anti.1 0 127 (by decide)

/-- C4 (code bug): the `SPP_SYNC` resync condition is inverted.  The
increment path does add one to `SPP`, but `SongPositionHandler` resets
`pulseCounter` exactly when `SPP % 16 ≠ 0` — at `beats = 16` (a measure
boundary, where the claim and the code's own "resync once per measure"
comment demand a resync) the counter is left untouched, while at
`beats = 1` it is resynced. -/
theorem spp_resync_inverted :
    (SongPositionHandler 16
      { pulsePending := false, extClockPending := false, pulseCounter := 5,
        timerEn := false, timerRunning := false, timerInterval := 0,
        led := false, SPP := 15 }).pulseCounter = 5 ∧
    (SongPositionHandler 1
      { pulsePending := false, extClockPending := false, pulseCounter := 5,
        timerEn := false, timerRunning := false, timerInterval := 0,
        led := false, SPP := 0 }).pulseCounter = 0 ∧
    (SongPositionIncrement
      { pulsePending := false, extClockPending := false, pulseCounter := 5,
        timerEn := false, timerRunning := false, timerInterval := 0,
        led := false, SPP := 15 }).SPP = 16 ∧
    (SongPositionIncrement
      { pulsePending := false, extClockPending := false, pulseCounter := 5,
        timerEn := false, timerRunning := false, timerInterval := 0,
        led := false, SPP := 15 }).pulseCounter = 5 := by
  refine ⟨?_, ?_, ?_, ?_⟩ <;> decide
